import Mathlib

/-!
Shallow embedding of `uer/layers/transformer.py`.

Tensors are an abstract type `T` with an `Add` instance (elementwise `+` of
the Python code).  The sub-modules `MultiHeadedAttention`, `LayerNorm`,
`PositionwiseFeedForward` / `GatedFeedForward`, `nn.Dropout` and
`RelativePositionEmbedding` live in other files of the repository; a layer
owns them as collaborator functions, which is exactly how the claims treat
them.  `MultiHeadedAttention.forward` takes `(key, value, query, mask,
position_bias)` with `position_bias` defaulting to `None`, so it is embedded
as a function of five arguments whose last has type `Option T`, and a Python
call that omits the argument passes `none`.
-/

/-- Runtime state of a `TransformerLayer`: the positioning flag and the
collaborator sub-modules created in `__init__`.  `relative_pos_emb` is
`none` when `args.relative_position_embedding` is false (the attribute is
set to Python `None`), and `some` of the embedding function otherwise. -/
structure TransformerLayer (T : Type) where
  layernorm_positioning : String
  self_attn : T → T → T → T → Option T → T
  dropout_1 : T → T
  layer_norm_1 : T → T
  feed_forward : T → T
  dropout_2 : T → T
  layer_norm_2 : T → T
  relative_pos_emb : Option (T → T → T)

/-- Translation of `TransformerLayer.forward(self, hidden, mask)`
(transformer.py lines 48-71), line by line: the position bias is computed
when `self.relative_pos_emb` is truthy, then the `"post"` branch applies
attention, residual, norm, feed-forward, residual, norm; the other branch is
the pre-norm ordering, whose attention call omits the position bias. -/
def TransformerLayer.forward {T : Type} [Add T]
    (L : TransformerLayer T) (hidden mask : T) : T :=
  let position_bias : Option T :=
    match L.relative_pos_emb with
    | some rpe => some (rpe hidden hidden)
    | none => none
  if L.layernorm_positioning == "post" then
    let inter := L.dropout_1 (L.self_attn hidden hidden hidden mask position_bias)
    let inter := L.layer_norm_1 (inter + hidden)
    let output := L.dropout_2 (L.feed_forward inter)
    L.layer_norm_2 (output + inter)
  else
    let inter := L.layer_norm_1 hidden
    let inter := L.dropout_1 (L.self_attn inter inter inter mask none)
    let hidden := hidden + inter
    let output := L.layer_norm_2 hidden
    L.dropout_2 (L.feed_forward output) + hidden

/-- Instrumented copy of `TransformerLayer.forward` that additionally
returns the list of argument pairs on which `self.relative_pos_emb` was
invoked during the call, in call order.  The body is the same translation of
lines 48-71; only the bias computation also records its arguments. -/
def TransformerLayer.forwardTraced {T : Type} [Add T]
    (L : TransformerLayer T) (hidden mask : T) : T × List (T × T) :=
  let pb : Option T × List (T × T) :=
    match L.relative_pos_emb with
    | some rpe => (some (rpe hidden hidden), [(hidden, hidden)])
    | none => (none, [])
  let position_bias := pb.1
  let output :=
    if L.layernorm_positioning == "post" then
      let inter := L.dropout_1 (L.self_attn hidden hidden hidden mask position_bias)
      let inter := L.layer_norm_1 (inter + hidden)
      let output := L.dropout_2 (L.feed_forward inter)
      L.layer_norm_2 (output + inter)
    else
      let inter := L.layer_norm_1 hidden
      let inter := L.dropout_1 (L.self_attn inter inter inter mask none)
      let hidden := hidden + inter
      let output := L.layer_norm_2 hidden
      L.dropout_2 (L.feed_forward output) + hidden
  (output, pb.2)

/-- Runtime state of a `TransformerDecoderLayer`: positioning flag,
self-attention, context-attention, three dropouts, three layer norms, the
feed-forward module and the optional relative position embedding. -/
structure TransformerDecoderLayer (T : Type) where
  layernorm_positioning : String
  self_attn : T → T → T → T → Option T → T
  dropout_1 : T → T
  layer_norm_1 : T → T
  context_attn : T → T → T → T → Option T → T
  dropout_2 : T → T
  layer_norm_2 : T → T
  feed_forward : T → T
  dropout_3 : T → T
  layer_norm_3 : T → T
  relative_pos_emb : Option (T → T → T)

/-- Translation of `TransformerDecoderLayer.forward(self, hidden,
encoder_hidden, mask_decoder, mask_encoder)` (transformer.py lines 118-151):
both position biases are computed when `self.relative_pos_emb` is truthy;
the `"post"` branch chains self-attention, cross-attention (called with
`(encoder_hidden, encoder_hidden, query_norm, mask_encoder,
context_position_bias)`) and feed-forward, each followed by residual and
norm; the other branch is the pre-norm ordering whose attention calls omit
the biases and whose result is not normalized at the end. -/
def TransformerDecoderLayer.forward {T : Type} [Add T]
    (L : TransformerDecoderLayer T)
    (hidden encoder_hidden mask_decoder mask_encoder : T) : T :=
  let biases : Option T × Option T :=
    match L.relative_pos_emb with
    | some rpe => (some (rpe hidden hidden), some (rpe hidden encoder_hidden))
    | none => (none, none)
  let self_position_bias := biases.1
  let context_position_bias := biases.2
  if L.layernorm_positioning == "post" then
    let query := L.dropout_1 (L.self_attn hidden hidden hidden mask_decoder self_position_bias)
    let query_norm := L.layer_norm_1 (query + hidden)
    let mid := L.dropout_2 (L.context_attn encoder_hidden encoder_hidden query_norm mask_encoder context_position_bias)
    let mid_norm := L.layer_norm_2 (mid + query_norm)
    let output := L.dropout_3 (L.feed_forward mid_norm)
    L.layer_norm_3 (output + mid_norm)
  else
    let hidden_norm := L.layer_norm_1 hidden
    let query := L.dropout_1 (L.self_attn hidden_norm hidden_norm hidden_norm mask_decoder none)
    let query := query + hidden
    let query_norm := L.layer_norm_2 query
    let mid := L.dropout_2 (L.context_attn encoder_hidden encoder_hidden query_norm mask_encoder none)
    let mid := mid + query
    let mid_norm := L.layer_norm_3 mid
    L.dropout_3 (L.feed_forward mid_norm) + mid

/-- Instrumented copy of `TransformerDecoderLayer.forward` that also
returns the list of argument pairs on which `self.relative_pos_emb` was
invoked during the call, in call order. -/
def TransformerDecoderLayer.forwardTraced {T : Type} [Add T]
    (L : TransformerDecoderLayer T)
    (hidden encoder_hidden mask_decoder mask_encoder : T) : T × List (T × T) :=
  let pb : (Option T × Option T) × List (T × T) :=
    match L.relative_pos_emb with
    | some rpe =>
        ((some (rpe hidden hidden), some (rpe hidden encoder_hidden)),
         [(hidden, hidden), (hidden, encoder_hidden)])
    | none => ((none, none), [])
  let self_position_bias := pb.1.1
  let context_position_bias := pb.1.2
  let output :=
    if L.layernorm_positioning == "post" then
      let query := L.dropout_1 (L.self_attn hidden hidden hidden mask_decoder self_position_bias)
      let query_norm := L.layer_norm_1 (query + hidden)
      let mid := L.dropout_2 (L.context_attn encoder_hidden encoder_hidden query_norm mask_encoder context_position_bias)
      let mid_norm := L.layer_norm_2 (mid + query_norm)
      let output := L.dropout_3 (L.feed_forward mid_norm)
      L.layer_norm_3 (output + mid_norm)
    else
      let hidden_norm := L.layer_norm_1 hidden
      let query := L.dropout_1 (L.self_attn hidden_norm hidden_norm hidden_norm mask_decoder none)
      let query := query + hidden
      let query_norm := L.layer_norm_2 query
      let mid := L.dropout_2 (L.context_attn encoder_hidden encoder_hidden query_norm mask_encoder none)
      let mid := mid + query
      let mid_norm := L.layer_norm_3 mid
      L.dropout_3 (L.feed_forward mid_norm) + mid
  (output, pb.2)

/-- Configuration object `args` as the two constructors read it.
`attention_head_size` is `none` when the attribute is absent, modelling the
`hasattr(args, "attention_head_size")` test.  `dropout` values are kept as
rationals; their numeric value is never inspected by this file's code. -/
structure Args where
  layernorm_positioning : String
  hidden_size : Nat
  heads_num : Nat
  attention_head_size : Option Nat
  dropout : Rat
  remove_transformer_bias : Bool
  feed_forward : String
  feedforward_size : Nat
  hidden_act : String
  relative_position_embedding : Bool

/-- Arguments with which a `MultiHeadedAttention` sub-module is
constructed. -/
structure MultiHeadedAttentionInit where
  hidden_size : Nat
  heads_num : Nat
  attention_head_size : Nat
  dropout : Rat
  has_bias : Bool

/-- Arguments with which a `LayerNorm` sub-module is constructed. -/
structure LayerNormInit where
  hidden_size : Nat
  has_bias : Bool

/-- Which feed-forward class was instantiated. -/
inductive FeedForwardKind where
  | gated
  | plain
deriving DecidableEq

/-- Arguments with which the feed-forward sub-module is constructed,
together with the class that was chosen. -/
structure FeedForwardInit where
  kind : FeedForwardKind
  hidden_size : Nat
  feedforward_size : Nat
  hidden_act : String
  has_bias : Bool

/-- Python truthiness of an integer, as applied by `bool(...)`. -/
def pyBool (n : Int) : Bool := decide (n ≠ 0)

/-- Python integer value of a `bool` in arithmetic context. -/
def pyInt (b : Bool) : Int := if b then 1 else 0

/-- Record of everything `TransformerLayer.__init__` stores: the
constructor arguments of every sub-module, both dropout probabilities, and
whether a `RelativePositionEmbedding` was created. -/
structure TransformerLayerInit where
  layernorm_positioning : String
  self_attn : MultiHeadedAttentionInit
  dropout_1 : Rat
  layer_norm_1 : LayerNormInit
  feed_forward : FeedForwardInit
  dropout_2 : Rat
  layer_norm_2 : LayerNormInit
  relative_pos_emb : Bool

/-- Translation of `TransformerLayer.__init__(self, args)` (transformer.py
lines 13-45): head size defaults to `hidden_size // heads_num` when the
attribute is absent, `has_bias = bool(1 - args.remove_transformer_bias)`,
the feed-forward class is `GatedFeedForward` exactly when
`args.feed_forward == "gated"`, and the relative position embedding is
created exactly when `args.relative_position_embedding` is truthy. -/
def TransformerLayer.init (args : Args) : TransformerLayerInit :=
  let attention_head_size : Nat :=
    match args.attention_head_size with
    | some v => v
    | none => args.hidden_size / args.heads_num
  let has_bias := pyBool (1 - pyInt args.remove_transformer_bias)
  { layernorm_positioning := args.layernorm_positioning
    self_attn :=
      ⟨args.hidden_size, args.heads_num, attention_head_size, args.dropout, has_bias⟩
    dropout_1 := args.dropout
    layer_norm_1 := ⟨args.hidden_size, has_bias⟩
    feed_forward :=
      if args.feed_forward == "gated" then
        ⟨FeedForwardKind.gated, args.hidden_size, args.feedforward_size, args.hidden_act, has_bias⟩
      else
        ⟨FeedForwardKind.plain, args.hidden_size, args.feedforward_size, args.hidden_act, has_bias⟩
    dropout_2 := args.dropout
    layer_norm_2 := ⟨args.hidden_size, has_bias⟩
    relative_pos_emb := args.relative_position_embedding }

/-- Record of everything `TransformerDecoderLayer.__init__` stores. -/
structure TransformerDecoderLayerInit where
  layernorm_positioning : String
  self_attn : MultiHeadedAttentionInit
  dropout_1 : Rat
  layer_norm_1 : LayerNormInit
  context_attn : MultiHeadedAttentionInit
  dropout_2 : Rat
  layer_norm_2 : LayerNormInit
  feed_forward : FeedForwardInit
  dropout_3 : Rat
  layer_norm_3 : LayerNormInit
  relative_pos_emb : Bool

/-- Translation of `TransformerDecoderLayer.__init__(self, args)`
(transformer.py lines 75-115): identical head-size and bias logic, one more
attention module (`context_attn`) and one more dropout/norm pair. -/
def TransformerDecoderLayer.init (args : Args) : TransformerDecoderLayerInit :=
  let attention_head_size : Nat :=
    match args.attention_head_size with
    | some v => v
    | none => args.hidden_size / args.heads_num
  let has_bias := pyBool (1 - pyInt args.remove_transformer_bias)
  { layernorm_positioning := args.layernorm_positioning
    self_attn :=
      ⟨args.hidden_size, args.heads_num, attention_head_size, args.dropout, has_bias⟩
    dropout_1 := args.dropout
    layer_norm_1 := ⟨args.hidden_size, has_bias⟩
    context_attn :=
      ⟨args.hidden_size, args.heads_num, attention_head_size, args.dropout, has_bias⟩
    dropout_2 := args.dropout
    layer_norm_2 := ⟨args.hidden_size, has_bias⟩
    feed_forward :=
      if args.feed_forward == "gated" then
        ⟨FeedForwardKind.gated, args.hidden_size, args.feedforward_size, args.hidden_act, has_bias⟩
      else
        ⟨FeedForwardKind.plain, args.hidden_size, args.feedforward_size, args.hidden_act, has_bias⟩
    dropout_3 := args.dropout
    layer_norm_3 := ⟨args.hidden_size, has_bias⟩
    relative_pos_emb := args.relative_position_embedding }

/-- Position bias the spec describes: computed from the relative position
embedding on the given pair of hidden states, `none` when the embedding is
disabled. -/
def specPositionBias {T : Type} (rpe : Option (T → T → T)) (a b : T) : Option T :=
  match rpe with
  | some f => some (f a b)
  | none => none

/-- Post-norm encoder output exactly as the spec writes it:
`attn_out = Dropout(SelfAttention(hidden, hidden, hidden, mask, position_bias))`,
`normed1 = LayerNorm1(attn_out + hidden)`,
`ff_out = Dropout(FeedForward(normed1))`,
`output = LayerNorm2(ff_out + normed1)`. -/
def specEncoderPostNorm {T : Type} [Add T]
    (L : TransformerLayer T) (hidden mask : T) : T :=
  let position_bias := specPositionBias L.relative_pos_emb hidden hidden
  let attn_out := L.dropout_1 (L.self_attn hidden hidden hidden mask position_bias)
  let normed1 := L.layer_norm_1 (attn_out + hidden)
  let ff_out := L.dropout_2 (L.feed_forward normed1)
  L.layer_norm_2 (ff_out + normed1)

/-- Pre-norm encoder output exactly as the spec writes it:
`normed0 = LayerNorm1(hidden)`,
`attn_out = Dropout(SelfAttention(normed0, normed0, normed0, mask))` with no
position bias passed,
`hidden1 = hidden + attn_out`, `normed1 = LayerNorm2(hidden1)`,
`output = Dropout(FeedForward(normed1)) + hidden1`. -/
def specEncoderPreNorm {T : Type} [Add T]
    (L : TransformerLayer T) (hidden mask : T) : T :=
  let normed0 := L.layer_norm_1 hidden
  let attn_out := L.dropout_1 (L.self_attn normed0 normed0 normed0 mask none)
  let hidden1 := hidden + attn_out
  let normed1 := L.layer_norm_2 hidden1
  L.dropout_2 (L.feed_forward normed1) + hidden1

/-- Post-norm decoder output exactly as the spec writes it, the
cross-attention call receiving `(encoder_hidden, encoder_hidden, q_norm,
mask_encoder, context_position_bias)`. -/
def specDecoderPostNorm {T : Type} [Add T]
    (L : TransformerDecoderLayer T)
    (hidden encoder_hidden mask_decoder mask_encoder : T) : T :=
  let self_position_bias := specPositionBias L.relative_pos_emb hidden hidden
  let context_position_bias := specPositionBias L.relative_pos_emb hidden encoder_hidden
  let q := L.dropout_1 (L.self_attn hidden hidden hidden mask_decoder self_position_bias)
  let q_norm := L.layer_norm_1 (q + hidden)
  let mid := L.dropout_2 (L.context_attn encoder_hidden encoder_hidden q_norm mask_encoder context_position_bias)
  let mid_norm := L.layer_norm_2 (mid + q_norm)
  let ff := L.dropout_3 (L.feed_forward mid_norm)
  L.layer_norm_3 (ff + mid_norm)

/-- Pre-norm decoder output exactly as the spec writes it: neither attention
call receives a position bias, and the returned value is the feed-forward
residual sum, not layer-normalized. -/
def specDecoderPreNorm {T : Type} [Add T]
    (L : TransformerDecoderLayer T)
    (hidden encoder_hidden mask_decoder mask_encoder : T) : T :=
  let n := L.layer_norm_1 hidden
  let q1 := L.dropout_1 (L.self_attn n n n mask_decoder none) + hidden
  let q_norm := L.layer_norm_2 q1
  let m1 := L.dropout_2 (L.context_attn encoder_hidden encoder_hidden q_norm mask_encoder none) + q1
  L.dropout_3 (L.feed_forward (L.layer_norm_3 m1)) + m1

/-- C1: with `layernorm_positioning == "post"`, `TransformerLayer.forward`
returns `LayerNorm2(Dropout2(FeedForward(n1)) + n1)` where
`n1 = LayerNorm1(Dropout1(SelfAttention(hidden, hidden, hidden, mask,
position_bias)) + hidden)`: the attention call receives the computed
position bias, each residual adds the sub-block's input, and normalization
follows each residual addition, in exactly this order. -/
theorem encoder_postnorm_forward_eq_spec {T : Type} [Add T]
    (L : TransformerLayer T) (hidden mask : T)
    (h : L.layernorm_positioning = "post") :
    L.forward hidden mask = specEncoderPostNorm L hidden mask := by
  cases hr : L.relative_pos_emb <;>
    simp [TransformerLayer.forward, specEncoderPostNorm, specPositionBias, h, hr]

/-- Concrete instantiation of `encoder_postnorm_forward_eq_spec`. -/
def encPostEx : TransformerLayer Nat where
  layernorm_positioning := "post"
  self_attn := fun k v q m b => 2 * k + 3 * v + 5 * q + 7 * m + b.getD 11
  dropout_1 := fun x => x + 1
  layer_norm_1 := fun x => 2 * x + 1
  feed_forward := fun x => x * x
  dropout_2 := fun x => x + 2
  layer_norm_2 := fun x => 3 * x
  relative_pos_emb := some (fun a b => a + 10 * b)

/-- Witness for C1 at a concrete post-norm layer and input. -/
theorem encoder_postnorm_forward_eq_spec_witness :
    encPostEx.forward 5 7 = specEncoderPostNorm encPostEx 5 7 :=
  encoder_postnorm_forward_eq_spec encPostEx 5 7 rfl

/-- Concrete pre-norm encoder layer, identical to `encPostEx` except for the
positioning flag. -/
def encPreEx : TransformerLayer Nat :=
  { encPostEx with layernorm_positioning := "pre" }

/-- C2: with any positioning other than `"post"`, `TransformerLayer.forward`
returns `Dropout2(FeedForward(LayerNorm2(h1))) + h1` where
`h1 = hidden + Dropout1(SelfAttention(n0, n0, n0, mask))` and
`n0 = LayerNorm1(hidden)`; the attention call receives no position bias even
when one was computed. -/
theorem encoder_prenorm_forward_eq_spec {T : Type} [Add T]
    (L : TransformerLayer T) (hidden mask : T)
    (h : L.layernorm_positioning ≠ "post") :
    L.forward hidden mask = specEncoderPreNorm L hidden mask := by
  cases hr : L.relative_pos_emb <;>
    simp [TransformerLayer.forward, specEncoderPreNorm, beq_iff_eq, h, hr]

/-- Witness for C2 at a concrete pre-norm layer and input. -/
theorem encoder_prenorm_forward_eq_spec_witness :
    encPreEx.forward 5 7 = specEncoderPreNorm encPreEx 5 7 :=
  encoder_prenorm_forward_eq_spec encPreEx 5 7 (by decide)

/-- C3: with `layernorm_positioning == "post"`,
`TransformerDecoderLayer.forward` returns
`LayerNorm3(Dropout3(FeedForward(m)) + m)` with
`m = LayerNorm2(Dropout2(CrossAttention(encoder_hidden, encoder_hidden,
q_norm, mask_encoder, context_position_bias)) + q_norm)` and
`q_norm = LayerNorm1(Dropout1(SelfAttention(hidden, hidden, hidden,
mask_decoder, self_position_bias)) + hidden)`; the cross-attention call
passes `encoder_hidden` as key and value (first two arguments) and the
current query state as the third. -/
theorem decoder_postnorm_forward_eq_spec {T : Type} [Add T]
    (L : TransformerDecoderLayer T)
    (hidden encoder_hidden mask_decoder mask_encoder : T)
    (h : L.layernorm_positioning = "post") :
    L.forward hidden encoder_hidden mask_decoder mask_encoder =
      specDecoderPostNorm L hidden encoder_hidden mask_decoder mask_encoder := by
  cases hr : L.relative_pos_emb <;>
    simp [TransformerDecoderLayer.forward, specDecoderPostNorm, specPositionBias, h, hr]

/-- Concrete instantiation of `decoder_postnorm_forward_eq_spec`. -/
def decPostEx : TransformerDecoderLayer Nat where
  layernorm_positioning := "post"
  self_attn := fun k v q m b => 2 * k + 3 * v + 5 * q + 7 * m + b.getD 11
  dropout_1 := fun x => x + 1
  layer_norm_1 := fun x => 2 * x + 1
  context_attn := fun k v q m b => k + 2 * v + 4 * q + m + 2 * b.getD 3
  dropout_2 := fun x => x + 2
  layer_norm_2 := fun x => 3 * x
  feed_forward := fun x => x * x
  dropout_3 := fun x => x + 3
  layer_norm_3 := fun x => 5 * x
  relative_pos_emb := some (fun a b => a + 10 * b)

/-- Witness for C3 at a concrete post-norm decoder layer and input. -/
theorem decoder_postnorm_forward_eq_spec_witness :
    decPostEx.forward 5 6 7 8 = specDecoderPostNorm decPostEx 5 6 7 8 :=
  decoder_postnorm_forward_eq_spec decPostEx 5 6 7 8 rfl

/-- Concrete pre-norm decoder layer, identical to `decPostEx` except for the
positioning flag. -/
def decPreEx : TransformerDecoderLayer Nat :=
  { decPostEx with layernorm_positioning := "pre" }

/-- C4: with any positioning other than `"post"`,
`TransformerDecoderLayer.forward` returns
`Dropout3(FeedForward(LayerNorm3(m1))) + m1` where
`m1 = Dropout2(CrossAttention(encoder_hidden, encoder_hidden, q_norm,
mask_encoder)) + q1`, `q_norm = LayerNorm2(q1)`,
`q1 = Dropout1(SelfAttention(n, n, n, mask_decoder)) + hidden` and
`n = LayerNorm1(hidden)`; neither attention call receives a position bias
and the returned value is not layer-normalized. -/
theorem decoder_prenorm_forward_eq_spec {T : Type} [Add T]
    (L : TransformerDecoderLayer T)
    (hidden encoder_hidden mask_decoder mask_encoder : T)
    (h : L.layernorm_positioning ≠ "post") :
    L.forward hidden encoder_hidden mask_decoder mask_encoder =
      specDecoderPreNorm L hidden encoder_hidden mask_decoder mask_encoder := by
  cases hr : L.relative_pos_emb <;>
    simp [TransformerDecoderLayer.forward, specDecoderPreNorm, beq_iff_eq, h, hr]

/-- Witness for C4 at a concrete pre-norm decoder layer and input. -/
theorem decoder_prenorm_forward_eq_spec_witness :
    decPreEx.forward 5 6 7 8 = specDecoderPreNorm decPreEx 5 6 7 8 :=
  decoder_prenorm_forward_eq_spec decPreEx 5 6 7 8 (by decide)

/-- Consistency of the instrumentation: the traced encoder forward computes
the same output as `TransformerLayer.forward`. -/
theorem encoder_forwardTraced_output {T : Type} [Add T]
    (L : TransformerLayer T) (hidden mask : T) :
    (L.forwardTraced hidden mask).1 = L.forward hidden mask := by
  cases hr : L.relative_pos_emb <;>
    simp [TransformerLayer.forward, TransformerLayer.forwardTraced, hr]

/-- Consistency of the instrumentation: the traced decoder forward computes
the same output as `TransformerDecoderLayer.forward`. -/
theorem decoder_forwardTraced_output {T : Type} [Add T]
    (L : TransformerDecoderLayer T)
    (hidden encoder_hidden mask_decoder mask_encoder : T) :
    (L.forwardTraced hidden encoder_hidden mask_decoder mask_encoder).1 =
      L.forward hidden encoder_hidden mask_decoder mask_encoder := by
  cases hr : L.relative_pos_emb <;>
    simp [TransformerDecoderLayer.forward, TransformerDecoderLayer.forwardTraced, hr]

/-- C5: per forward call, when the relative position embedding is disabled
the bias collaborator is never invoked (empty call trace); when enabled, the
encoder forward invokes it exactly once with `(hidden, hidden)` and the
decoder forward exactly twice, with `(hidden, hidden)` then
`(hidden, encoder_hidden)`, always the current call's arguments — the
forward functions are pure, so nothing is cached across calls. -/
theorem position_bias_gating {T : Type} [Add T]
    (Le : TransformerLayer T) (Ld : TransformerDecoderLayer T)
    (hidden mask dhidden encoder_hidden mask_decoder mask_encoder : T) :
    ((Le.forwardTraced hidden mask).2 =
      match Le.relative_pos_emb with
      | none => []
      | some _ => [(hidden, hidden)]) ∧
    ((Ld.forwardTraced dhidden encoder_hidden mask_decoder mask_encoder).2 =
      match Ld.relative_pos_emb with
      | none => []
      | some _ => [(dhidden, dhidden), (dhidden, encoder_hidden)]) := by
  constructor
  · cases hr : Le.relative_pos_emb <;>
      simp [TransformerLayer.forwardTraced, hr]
  · cases hr : Ld.relative_pos_emb <;>
      simp [TransformerDecoderLayer.forwardTraced, hr]

/-- Shape-annotated abstract tensor used to witness the shape-preservation
theorem: the value is just its shape. -/
structure STensor where
  shape : List Nat
deriving DecidableEq

instance : Add STensor := ⟨fun a _ => a⟩

/-- C6: assuming the collaborators' shape contracts — attention output has
its query's shape, dropout, layer norm and feed-forward preserve shape, and
elementwise addition of equal-shaped tensors keeps that shape — both forward
functions return a tensor of the same shape as their `hidden` input, for the
decoder independently of `encoder_hidden`'s shape. -/
theorem shape_preservation {T : Type} [Add T] (shape : T → List Nat)
    (Le : TransformerLayer T) (Ld : TransformerDecoderLayer T)
    (hidden mask dhidden encoder_hidden mask_decoder mask_encoder : T)
    (hadd : ∀ x y : T, shape x = shape y → shape (x + y) = shape x)
    (hesa : ∀ k v q m b, shape (Le.self_attn k v q m b) = shape q)
    (hed1 : ∀ x, shape (Le.dropout_1 x) = shape x)
    (hen1 : ∀ x, shape (Le.layer_norm_1 x) = shape x)
    (heff : ∀ x, shape (Le.feed_forward x) = shape x)
    (hed2 : ∀ x, shape (Le.dropout_2 x) = shape x)
    (hen2 : ∀ x, shape (Le.layer_norm_2 x) = shape x)
    (hdsa : ∀ k v q m b, shape (Ld.self_attn k v q m b) = shape q)
    (hdca : ∀ k v q m b, shape (Ld.context_attn k v q m b) = shape q)
    (hdd1 : ∀ x, shape (Ld.dropout_1 x) = shape x)
    (hdn1 : ∀ x, shape (Ld.layer_norm_1 x) = shape x)
    (hdd2 : ∀ x, shape (Ld.dropout_2 x) = shape x)
    (hdn2 : ∀ x, shape (Ld.layer_norm_2 x) = shape x)
    (hdff : ∀ x, shape (Ld.feed_forward x) = shape x)
    (hdd3 : ∀ x, shape (Ld.dropout_3 x) = shape x)
    (hdn3 : ∀ x, shape (Ld.layer_norm_3 x) = shape x) :
    shape (Le.forward hidden mask) = shape hidden ∧
    shape (Ld.forward dhidden encoder_hidden mask_decoder mask_encoder) = shape dhidden := by
  constructor
  · by_cases hp : Le.layernorm_positioning == "post" <;>
      simp [TransformerLayer.forward, hp, hesa, hed1, hen1, heff, hed2, hen2, hadd]
  · by_cases hp : Ld.layernorm_positioning == "post" <;>
      simp [TransformerDecoderLayer.forward, hp, hdsa, hdca, hdd1, hdn1, hdd2,
        hdn2, hdff, hdd3, hdn3, hadd]

/-- Shape-level encoder layer: every collaborator satisfies its shape
contract trivially. -/
def encShapeEx : TransformerLayer STensor where
  layernorm_positioning := "post"
  self_attn := fun _ _ q _ _ => q
  dropout_1 := id
  layer_norm_1 := id
  feed_forward := id
  dropout_2 := id
  layer_norm_2 := id
  relative_pos_emb := none

/-- Shape-level decoder layer (pre-norm) whose cross-attention returns its
query argument, so its output shape ignores the encoder side. -/
def decShapeEx : TransformerDecoderLayer STensor where
  layernorm_positioning := "pre"
  self_attn := fun _ _ q _ _ => q
  dropout_1 := id
  layer_norm_1 := id
  context_attn := fun _ _ q _ _ => q
  dropout_2 := id
  layer_norm_2 := id
  feed_forward := id
  dropout_3 := id
  layer_norm_3 := id
  relative_pos_emb := none

/-- Witness for C6: a (2,3,4) hidden input comes out with shape
`[2,3,4]` in both layers, in the decoder even though `encoder_hidden` has
shape `[2,7,4]`. -/
theorem shape_preservation_witness :
    (encShapeEx.forward ⟨[2, 3, 4]⟩ ⟨[2, 1, 3, 3]⟩).shape = [2, 3, 4] ∧
    (decShapeEx.forward ⟨[2, 3, 4]⟩ ⟨[2, 7, 4]⟩ ⟨[2, 1, 3, 3]⟩ ⟨[2, 1, 3, 7]⟩).shape = [2, 3, 4] := by
  apply shape_preservation STensor.shape encShapeEx decShapeEx <;> intros <;> rfl

/-- C7: when the configuration lacks `attention_head_size`, every attention
sub-module of either layer is constructed with head size
`hidden_size // heads_num`; when the field is present its value is used
verbatim. -/
theorem attention_head_size_default (args : Args) :
    (args.attention_head_size = none →
      (TransformerLayer.init args).self_attn.attention_head_size =
        args.hidden_size / args.heads_num ∧
      (TransformerDecoderLayer.init args).self_attn.attention_head_size =
        args.hidden_size / args.heads_num ∧
      (TransformerDecoderLayer.init args).context_attn.attention_head_size =
        args.hidden_size / args.heads_num) ∧
    (∀ v : Nat, args.attention_head_size = some v →
      (TransformerLayer.init args).self_attn.attention_head_size = v ∧
      (TransformerDecoderLayer.init args).self_attn.attention_head_size = v ∧
      (TransformerDecoderLayer.init args).context_attn.attention_head_size = v) := by
  constructor
  · intro h
    simp [TransformerLayer.init, TransformerDecoderLayer.init, h]
  · intro v h
    simp [TransformerLayer.init, TransformerDecoderLayer.init, h]

/-- Example configuration: BERT-base-like, no explicit head size, gated
feed-forward, relative position embedding on. -/
def argsEx : Args where
  layernorm_positioning := "post"
  hidden_size := 768
  heads_num := 12
  attention_head_size := none
  dropout := (1 : Rat) / 10
  remove_transformer_bias := false
  feed_forward := "gated"
  feedforward_size := 3072
  hidden_act := "gelu"
  relative_position_embedding := true

/-- Example configuration that does provide `attention_head_size`. -/
def argsHS : Args := { argsEx with attention_head_size := some 9 }

/-- Example configuration with an unsupported `feed_forward` kind. -/
def argsPlain : Args := { argsEx with feed_forward := "relu" }

/-- Witness for C7: the default `768 / 12 = 64` and the explicit `9`. -/
theorem attention_head_size_default_witness :
    (TransformerLayer.init argsEx).self_attn.attention_head_size = 768 / 12 ∧
    (TransformerLayer.init argsHS).self_attn.attention_head_size = 9 :=
  ⟨((attention_head_size_default argsEx).1 rfl).1,
   ((attention_head_size_default argsHS).2 9 rfl).1⟩

/-- C8: for every value of `remove_transformer_bias`, the `has_bias` flag
passed to every sub-module of either layer — both attentions, the
feed-forward and all layer norms — equals its logical negation,
`bool(1 - remove_transformer_bias)`. -/
theorem has_bias_uniform_negation (args : Args) :
    (TransformerLayer.init args).self_attn.has_bias = !args.remove_transformer_bias ∧
    (TransformerLayer.init args).layer_norm_1.has_bias = !args.remove_transformer_bias ∧
    (TransformerLayer.init args).feed_forward.has_bias = !args.remove_transformer_bias ∧
    (TransformerLayer.init args).layer_norm_2.has_bias = !args.remove_transformer_bias ∧
    (TransformerDecoderLayer.init args).self_attn.has_bias = !args.remove_transformer_bias ∧
    (TransformerDecoderLayer.init args).layer_norm_1.has_bias = !args.remove_transformer_bias ∧
    (TransformerDecoderLayer.init args).context_attn.has_bias = !args.remove_transformer_bias ∧
    (TransformerDecoderLayer.init args).layer_norm_2.has_bias = !args.remove_transformer_bias ∧
    (TransformerDecoderLayer.init args).feed_forward.has_bias = !args.remove_transformer_bias ∧
    (TransformerDecoderLayer.init args).layer_norm_3.has_bias = !args.remove_transformer_bias := by
  cases hb : args.remove_transformer_bias <;>
    by_cases hf : args.feed_forward == "gated" <;>
      simp [TransformerLayer.init, TransformerDecoderLayer.init, pyBool, pyInt, hb, hf]

/-- C9: either constructor instantiates the gated feed-forward variant
exactly when `args.feed_forward = "gated"`, and for every configuration the
result is one of the two variants — unsupported kinds silently select the
plain variant, never an error. -/
theorem gated_feed_forward_selection (args : Args) :
    ((TransformerLayer.init args).feed_forward.kind = FeedForwardKind.gated ↔
      args.feed_forward = "gated") ∧
    ((TransformerDecoderLayer.init args).feed_forward.kind = FeedForwardKind.gated ↔
      args.feed_forward = "gated") ∧
    ((TransformerLayer.init args).feed_forward.kind = FeedForwardKind.gated ∨
      (TransformerLayer.init args).feed_forward.kind = FeedForwardKind.plain) ∧
    ((TransformerDecoderLayer.init args).feed_forward.kind = FeedForwardKind.gated ∨
      (TransformerDecoderLayer.init args).feed_forward.kind = FeedForwardKind.plain) := by
  by_cases hf : args.feed_forward = "gated" <;>
    simp [TransformerLayer.init, TransformerDecoderLayer.init, beq_iff_eq, hf]

/-- Witness for C9: `"gated"` selects the gated variant, `"relu"` the plain
one. -/
theorem gated_feed_forward_selection_witness :
    (TransformerLayer.init argsEx).feed_forward.kind = FeedForwardKind.gated ∧
    (TransformerDecoderLayer.init argsPlain).feed_forward.kind = FeedForwardKind.plain :=
  ⟨(gated_feed_forward_selection argsEx).1.mpr rfl,
   ((gated_feed_forward_selection argsPlain).2.2.2).resolve_left
     (fun h => by
       have := (gated_feed_forward_selection argsPlain).2.1.mp h
       simp [argsPlain, argsEx] at this)⟩

/-- State-passing form of one Python call `layer.forward(hidden, mask)`:
the body of `TransformerLayer.forward` (lines 48-71) contains no assignment
to `self` or to any sub-module, so the module state after the call is the
module state before it. -/
def TransformerLayer.call {T : Type} [Add T]
    (L : TransformerLayer T) (hidden mask : T) : T × TransformerLayer T :=
  (L.forward hidden mask, L)

/-- State-passing form of one Python call to the decoder layer; its body
(lines 118-151) likewise performs no assignment to `self`. -/
def TransformerDecoderLayer.call {T : Type} [Add T]
    (L : TransformerDecoderLayer T)
    (hidden encoder_hidden mask_decoder mask_encoder : T) :
    T × TransformerDecoderLayer T :=
  (L.forward hidden encoder_hidden mask_decoder mask_encoder, L)

/-- C10: with the collaborators fixed deterministic functions (dropout in
eval mode is one of them), calling a layer twice on the same input yields
identical outputs, and neither call changes the layer's state. -/
theorem forward_pure_deterministic {T : Type} [Add T]
    (Le : TransformerLayer T) (Ld : TransformerDecoderLayer T)
    (hidden mask dhidden encoder_hidden mask_decoder mask_encoder : T) :
    ((Le.call hidden mask).2 = Le ∧
      ((Le.call hidden mask).2.call hidden mask).1 = (Le.call hidden mask).1) ∧
    ((Ld.call dhidden encoder_hidden mask_decoder mask_encoder).2 = Ld ∧
      ((Ld.call dhidden encoder_hidden mask_decoder mask_encoder).2.call
          dhidden encoder_hidden mask_decoder mask_encoder).1 =
        (Ld.call dhidden encoder_hidden mask_decoder mask_encoder).1) :=
  ⟨⟨rfl, rfl⟩, ⟨rfl, rfl⟩⟩
